import Mathlib

/-!
Verification of the computational core of a BMI calculator and diet
planner (src/app.py).  Numeric values are modelled as exact rationals;
the Python builtin int conversion (truncation toward zero) is modelled
by pyInt; floating-point division by zero, which raises an exception in
Python, is modelled by an Option result on the BMI calculator.
-/

namespace Roy

/-- Python int conversion on a rational: truncation toward zero. -/
def pyInt (q : ℚ) : ℤ := if 0 ≤ q then ⌊q⌋ else ⌈q⌉

/-- calculate_bmi from src/app.py lines 36-38.  In Python a zero squared
height raises ZeroDivisionError, modelled here as none. -/
def calculate_bmi (weight height_cm : ℚ) : Option ℚ :=
  let height_m := height_cm / 100
  if height_m ^ 2 = 0 then none else some (weight / height_m ^ 2)

/-- bmi_category from src/app.py lines 41-49. -/
def bmi_category (bmi : ℚ) : String :=
  if bmi < 18.5 then "Underweight"
  else if 18.5 ≤ bmi ∧ bmi < 25 then "Normal weight"
  else if 25 ≤ bmi ∧ bmi < 30 then "Overweight"
  else "Obese"

/-- activity_factor from src/app.py lines 52-60: dictionary lookup with
default 1.2. -/
def activity_factor (level : String) : ℚ :=
  if level = "Sedentary (little or no exercise)" then 1.2
  else if level = "Lightly active (light exercise/sports 1-3 days/week)" then 1.375
  else if level = "Moderately active (moderate exercise/sports 3-5 days/week)" then 1.55
  else if level = "Very active (hard exercise/sports 6-7 days/week)" then 1.725
  else if level = "Extra active (very hard exercise or physical job)" then 1.9
  else 1.2

/-- bmr_mifflin from src/app.py lines 63-73. -/
def bmr_mifflin (weight height_cm age : ℚ) (gender : String) : ℚ :=
  if gender = "Male" then 10 * weight + 6.25 * height_cm - 5 * age + 5
  else if gender = "Female" then 10 * weight + 6.25 * height_cm - 5 * age - 161
  else
    let male := 10 * weight + 6.25 * height_cm - 5 * age + 5
    let female := 10 * weight + 6.25 * height_cm - 5 * age - 161
    (male + female) / 2

/-- Goal offset dictionary from src/app.py lines 78-84, with the
dictionary get default of 0. -/
def goal_offset (goal : String) : ℤ :=
  if goal = "Maintain weight" then 0
  else if goal = "Mild weight loss" then -250
  else if goal = "Weight loss" then -500
  else if goal = "Mild weight gain" then 250
  else if goal = "Weight gain" then 500
  else 0

/-- adjust_calorie_for_goal from src/app.py lines 76-85: int conversion
of tdee plus the goal offset. -/
def adjust_calorie_for_goal (tdee : ℤ) (goal : String) : ℤ :=
  pyInt ((tdee + goal_offset goal : ℤ) : ℚ)

/-- The tdee computation from src/app.py line 134. -/
def tdee_of (bmr : ℚ) (activity : String) : ℤ :=
  pyInt (bmr * activity_factor activity)

/-- The meal plan record returned by sample_meal_plan. -/
structure MealPlan where
  notes : String
  breakfast : String
  lunch : String
  snack : String
  dinner : String
  deriving Repr, DecidableEq

/-- sample_meal_plan from src/app.py lines 88-127. -/
def sample_meal_plan (cal_target : ℤ) (category : String) : MealPlan :=
  let b := pyInt ((cal_target : ℚ) * 0.25)
  let l := pyInt ((cal_target : ℚ) * 0.35)
  let s := pyInt ((cal_target : ℚ) * 0.10)
  let d := pyInt ((cal_target : ℚ) * 0.30)
  if category = "Underweight" then
    { notes := "Focus on calorie-dense nutritious foods: nuts, dairy, healthy oils, and protein."
      breakfast := "Oats with whole milk, banana, and peanut butter (~" ++ toString (b + 150) ++ " kcal)"
      lunch := "Rice/roti + dal + paneer/chicken + veggies (~" ++ toString (l + 200) ++ " kcal)"
      snack := "Nuts & dried fruit or smoothie (~" ++ toString (s + 150) ++ " kcal)"
      dinner := "Rice/roti + lentils + salad + yogurt (~" ++ toString (d + 150) ++ " kcal)" }
  else if category = "Normal weight" then
    { notes := "Maintain balanced macros and regular activity."
      breakfast := "Vegetable omelette/tofu scramble + wholegrain toast (~" ++ toString b ++ " kcal)"
      lunch := "Grilled chicken/fish or paneer + salad + brown rice (~" ++ toString l ++ " kcal)"
      snack := "Fruit or yogurt (~" ++ toString s ++ " kcal)"
      dinner := "Light curry + roti + salad (~" ++ toString d ++ " kcal)" }
  else if category = "Overweight" then
    { notes := "Reduce refined carbs & added sugars; prioritize protein and fiber."
      breakfast := "Greek yogurt + berries + seeds (~" ++ toString (b - 100) ++ " kcal)"
      lunch := "Grilled protein + large salad + quinoa (~" ++ toString (l - 100) ++ " kcal)"
      snack := "Raw veggies or an apple (~" ++ toString (s - 50) ++ " kcal)"
      dinner := "Steamed fish/beans + veggies (~" ++ toString (d - 50) ++ " kcal)" }
  else
    { notes := "Aim for modest calorie deficit, high fiber, lean proteins. Consult a professional for personalised plan."
      breakfast := "Oatmeal with berries (~" ++ toString (b - 150) ++ " kcal)"
      lunch := "Large salad with lean protein (~" ++ toString (l - 150) ++ " kcal)"
      snack := "Veg sticks or a small fruit (~" ++ toString (s - 50) ++ " kcal)"
      dinner := "Light vegetable soup + lean protein (~" ++ toString (d - 100) ++ " kcal)" }

/-- The form inputs of src/app.py lines 15-32.  Age, height and weight
come from integer-valued widgets; gender, activity and goal are the
selected strings. -/
structure BiometricInput where
  age : ℤ
  gender : String
  height_cm : ℤ
  weight_kg : ℤ
  activity : String
  goal : String
  deriving Repr, DecidableEq

/-- The two exportable artefacts of src/app.py lines 178-195: the text
report and the meal plan CSV. -/
structure Report where
  text : String
  csv : String
  deriving Repr, DecidableEq

/-- Fixed-point formatting with two decimals, modelling the .2f format
used for the BMI value in the report (src/app.py line 181). -/
def fmt2 (q : ℚ) : String :=
  let sgn := if q < 0 then "-" else ""
  let n : ℤ := ⌊|q| * 100 + 1 / 2⌋
  sgn ++ toString (n / 100) ++ "." ++ (if n % 100 < 10 then "0" else "") ++ toString (n % 100)

/-- A CSV field as written by the pandas to_csv export (src/app.py
lines 191-194): quoted when it contains a comma, quote or newline. -/
def csvField (s : String) : String :=
  if s.contains ',' || s.contains '\"' || s.contains '\n' then
    "\"" ++ s.replace "\"" "\"\"" ++ "\""
  else s

/-- The plain-text report of src/app.py lines 179-186. -/
def reportText (inp : BiometricInput) (bmi : ℚ) (category : String)
    (bmr : ℚ) (tdee cal_target : ℤ) (plan : MealPlan) : String :=
  "BMI Report\n" ++
  "Age: " ++ toString inp.age ++ "\nGender: " ++ inp.gender ++
  "\nHeight (cm): " ++ toString inp.height_cm ++
  "\nWeight (kg): " ++ toString inp.weight_kg ++ "\n\n" ++
  "BMI: " ++ fmt2 bmi ++ " (" ++ category ++ ")\nBMR: " ++ toString (pyInt bmr) ++
  " kcal/day\nTDEE: " ++ toString tdee ++ " kcal/day\nCalorie target: " ++
  toString cal_target ++ " kcal/day\n\n" ++
  "Sample Meal Plan:\n" ++
  "Breakfast: " ++ plan.breakfast ++ "\nLunch: " ++ plan.lunch ++
  "\nSnack: " ++ plan.snack ++ "\nDinner: " ++ plan.dinner ++ "\n"

/-- The meal plan CSV of src/app.py lines 191-194: header row then the
four meal rows in fixed order. -/
def csvText (plan : MealPlan) : String :=
  "meal,suggestion\n" ++
  "Breakfast," ++ csvField plan.breakfast ++ "\n" ++
  "Lunch," ++ csvField plan.lunch ++ "\n" ++
  "Snack," ++ csvField plan.snack ++ "\n" ++
  "Dinner," ++ csvField plan.dinner ++ "\n"

/-- The submit pipeline of src/app.py lines 130-195: BMI, category,
BMR, TDEE, calorie target, meal plan, then the report and CSV exports.
Returns none exactly when the BMI division raises. -/
def runPipeline (inp : BiometricInput) : Option Report :=
  match calculate_bmi (inp.weight_kg : ℚ) (inp.height_cm : ℚ) with
  | none => none
  | some bmi =>
    let category := bmi_category bmi
    let bmr := bmr_mifflin (inp.weight_kg : ℚ) (inp.height_cm : ℚ) (inp.age : ℚ) inp.gender
    let tdee := tdee_of bmr inp.activity
    let cal_target := adjust_calorie_for_goal tdee inp.goal
    let plan := sample_meal_plan cal_target category
    some { text := reportText inp bmi category bmr tdee cal_target plan
           csv := csvText plan }

/-- Rank of a category string in the ordering used by the categorizer,
for stating monotonicity. -/
def catRank (c : String) : ℕ :=
  if c = "Underweight" then 0
  else if c = "Normal weight" then 1
  else if c = "Overweight" then 2
  else 3

theorem pyInt_intCast (n : ℤ) : pyInt (n : ℚ) = n := by
  unfold pyInt
  split_ifs <;> simp

theorem calculate_bmi_eq_some (w h : ℚ) (hh : h ≠ 0) :
    calculate_bmi w h = some (w / (h / 100) ^ 2) := by
  unfold calculate_bmi
  rw [if_neg (pow_ne_zero 2 (div_ne_zero hh (by norm_num)))]

theorem catRank_bmi_category (x : ℚ) :
    catRank (bmi_category x) =
      if x < 18.5 then 0 else if x < 25 then 1 else if x < 30 then 2 else 3 := by
  unfold bmi_category
  by_cases h1 : x < 18.5
  · rw [if_pos h1, if_pos h1]; decide
  · rw [if_neg h1, if_neg h1]
    by_cases h2 : x < 25
    · rw [if_pos ⟨le_of_not_lt h1, h2⟩, if_pos h2]; decide
    · rw [if_neg (fun hc => h2 hc.2), if_neg h2]
      by_cases h3 : x < 30
      · rw [if_pos ⟨le_of_not_lt h2, h3⟩, if_pos h3]; decide
      · rw [if_neg (fun hc => h3 hc.2), if_neg h3]; decide

/-- C1: the categorizer is a total monotonic step function of the BMI
value with left-closed bands; the boundary inputs 18.5, 25 and 30 fall
into the upper category. -/
theorem C1_categorizer_bands :
    (∀ bmi : ℚ, bmi < 18.5 → bmi_category bmi = "Underweight") ∧
    (∀ bmi : ℚ, 18.5 ≤ bmi → bmi < 25 → bmi_category bmi = "Normal weight") ∧
    (∀ bmi : ℚ, 25 ≤ bmi → bmi < 30 → bmi_category bmi = "Overweight") ∧
    (∀ bmi : ℚ, 30 ≤ bmi → bmi_category bmi = "Obese") ∧
    (∀ a b : ℚ, a ≤ b → catRank (bmi_category a) ≤ catRank (bmi_category b)) ∧
    bmi_category 18.5 = "Normal weight" ∧
    bmi_category 25 = "Overweight" ∧
    bmi_category 30 = "Obese" := by
  refine ⟨?_, ?_, ?_, ?_, ?_, ?_, ?_, ?_⟩
  · intro bmi h
    unfold bmi_category
    rw [if_pos h]
  · intro bmi h1 h2
    unfold bmi_category
    rw [if_neg (not_lt.mpr h1), if_pos ⟨h1, h2⟩]
  · intro bmi h1 h2
    unfold bmi_category
    rw [if_neg (not_lt.mpr (by linarith)), if_neg (fun hc => (not_lt.mpr h1) hc.2),
      if_pos ⟨h1, h2⟩]
  · intro bmi h
    unfold bmi_category
    rw [if_neg (not_lt.mpr (by linarith)), if_neg (fun hc => (not_lt.mpr (by linarith)) hc.2),
      if_neg (fun hc => (not_lt.mpr h) hc.2)]
  · intro a b hab
    rw [catRank_bmi_category, catRank_bmi_category]
    split_ifs <;> first | (exfalso; linarith) | norm_num
  · norm_num [bmi_category]
  · norm_num [bmi_category]
  · norm_num [bmi_category]

/-- C1 witness: concrete applications of the band and monotonicity
parts of the categorizer theorem. -/
theorem C1_categorizer_bands_witness :
    bmi_category 17 = "Underweight" ∧
    catRank (bmi_category 20) ≤ catRank (bmi_category 27) :=
  ⟨C1_categorizer_bands.1 17 (by norm_num),
   C1_categorizer_bands.2.2.2.2.1 20 27 (by norm_num)⟩

/-- C2: the Mifflin-St Jeor BMR formulas for Male, Female, and the
arithmetic mean for Other, with their values at weight 70, height 170,
age 25. -/
theorem C2_bmr_formulas :
    (∀ w h a : ℚ, bmr_mifflin w h a "Male" = 10 * w + 6.25 * h - 5 * a + 5) ∧
    (∀ w h a : ℚ, bmr_mifflin w h a "Female" = 10 * w + 6.25 * h - 5 * a - 161) ∧
    (∀ w h a : ℚ, bmr_mifflin w h a "Other" =
      ((10 * w + 6.25 * h - 5 * a + 5) + (10 * w + 6.25 * h - 5 * a - 161)) / 2) ∧
    bmr_mifflin 70 170 25 "Male" = 1642.5 ∧
    bmr_mifflin 70 170 25 "Female" = 1476.5 ∧
    bmr_mifflin 70 170 25 "Other" = 1559.5 := by
  refine ⟨fun w h a => ?_, fun w h a => ?_, fun w h a => ?_,
    by unfold bmr_mifflin; rw [if_pos rfl]; norm_num,
    by unfold bmr_mifflin; rw [if_neg (by decide), if_pos rfl]; norm_num,
    by unfold bmr_mifflin; rw [if_neg (by decide), if_neg (by decide)]; norm_num⟩
  · unfold bmr_mifflin
    rw [if_pos rfl]
  · unfold bmr_mifflin
    rw [if_neg (by decide), if_pos rfl]
  · unfold bmr_mifflin
    rw [if_neg (by decide), if_neg (by decide)]

/-- C3: TDEE is the truncation toward zero of BMR times the tabulated
activity factor, and the calorie target is the truncation of TDEE plus
the tabulated goal offset, for every entry of both tables. -/
theorem C3_tdee_and_target :
    (∀ bmr : ℚ, tdee_of bmr "Sedentary (little or no exercise)" = pyInt (bmr * 1.2)) ∧
    (∀ bmr : ℚ, tdee_of bmr "Lightly active (light exercise/sports 1-3 days/week)" =
      pyInt (bmr * 1.375)) ∧
    (∀ bmr : ℚ, tdee_of bmr "Moderately active (moderate exercise/sports 3-5 days/week)" =
      pyInt (bmr * 1.55)) ∧
    (∀ bmr : ℚ, tdee_of bmr "Very active (hard exercise/sports 6-7 days/week)" =
      pyInt (bmr * 1.725)) ∧
    (∀ bmr : ℚ, tdee_of bmr "Extra active (very hard exercise or physical job)" =
      pyInt (bmr * 1.9)) ∧
    (∀ t : ℤ, adjust_calorie_for_goal t "Maintain weight" = pyInt ((t + 0 : ℤ) : ℚ)) ∧
    (∀ t : ℤ, adjust_calorie_for_goal t "Mild weight loss" = pyInt ((t - 250 : ℤ) : ℚ)) ∧
    (∀ t : ℤ, adjust_calorie_for_goal t "Weight loss" = pyInt ((t - 500 : ℤ) : ℚ)) ∧
    (∀ t : ℤ, adjust_calorie_for_goal t "Mild weight gain" = pyInt ((t + 250 : ℤ) : ℚ)) ∧
    (∀ t : ℤ, adjust_calorie_for_goal t "Weight gain" = pyInt ((t + 500 : ℤ) : ℚ)) := by
  exact ⟨fun bmr => rfl, fun bmr => rfl, fun bmr => rfl, fun bmr => rfl, fun bmr => rfl,
    fun t => rfl, fun t => rfl, fun t => rfl, fun t => rfl, fun t => rfl⟩

/-- C4: the meal plan generator computes truncated base portions of 25,
35, 10 and 30 percent of the calorie target, applies the fixed
per-category deltas and renders the fixed template strings; it is a
total function of its inputs. -/
theorem C4_meal_plan_portions :
    ∀ ct : ℤ,
      sample_meal_plan ct "Underweight" =
        { notes := "Focus on calorie-dense nutritious foods: nuts, dairy, healthy oils, and protein."
          breakfast := "Oats with whole milk, banana, and peanut butter (~" ++
            toString (pyInt ((ct : ℚ) * 0.25) + 150) ++ " kcal)"
          lunch := "Rice/roti + dal + paneer/chicken + veggies (~" ++
            toString (pyInt ((ct : ℚ) * 0.35) + 200) ++ " kcal)"
          snack := "Nuts & dried fruit or smoothie (~" ++
            toString (pyInt ((ct : ℚ) * 0.10) + 150) ++ " kcal)"
          dinner := "Rice/roti + lentils + salad + yogurt (~" ++
            toString (pyInt ((ct : ℚ) * 0.30) + 150) ++ " kcal)" } ∧
      sample_meal_plan ct "Normal weight" =
        { notes := "Maintain balanced macros and regular activity."
          breakfast := "Vegetable omelette/tofu scramble + wholegrain toast (~" ++
            toString (pyInt ((ct : ℚ) * 0.25)) ++ " kcal)"
          lunch := "Grilled chicken/fish or paneer + salad + brown rice (~" ++
            toString (pyInt ((ct : ℚ) * 0.35)) ++ " kcal)"
          snack := "Fruit or yogurt (~" ++ toString (pyInt ((ct : ℚ) * 0.10)) ++ " kcal)"
          dinner := "Light curry + roti + salad (~" ++
            toString (pyInt ((ct : ℚ) * 0.30)) ++ " kcal)" } ∧
      sample_meal_plan ct "Overweight" =
        { notes := "Reduce refined carbs & added sugars; prioritize protein and fiber."
          breakfast := "Greek yogurt + berries + seeds (~" ++
            toString (pyInt ((ct : ℚ) * 0.25) - 100) ++ " kcal)"
          lunch := "Grilled protein + large salad + quinoa (~" ++
            toString (pyInt ((ct : ℚ) * 0.35) - 100) ++ " kcal)"
          snack := "Raw veggies or an apple (~" ++
            toString (pyInt ((ct : ℚ) * 0.10) - 50) ++ " kcal)"
          dinner := "Steamed fish/beans + veggies (~" ++
            toString (pyInt ((ct : ℚ) * 0.30) - 50) ++ " kcal)" } ∧
      sample_meal_plan ct "Obese" =
        { notes := "Aim for modest calorie deficit, high fiber, lean proteins. Consult a professional for personalised plan."
          breakfast := "Oatmeal with berries (~" ++
            toString (pyInt ((ct : ℚ) * 0.25) - 150) ++ " kcal)"
          lunch := "Large salad with lean protein (~" ++
            toString (pyInt ((ct : ℚ) * 0.35) - 150) ++ " kcal)"
          snack := "Veg sticks or a small fruit (~" ++
            toString (pyInt ((ct : ℚ) * 0.10) - 50) ++ " kcal)"
          dinner := "Light vegetable soup + lean protein (~" ++
            toString (pyInt ((ct : ℚ) * 0.30) - 100) ++ " kcal)" } :=
  fun ct => ⟨rfl, rfl, rfl, rfl⟩

/-- C5: for positive weight and height the BMI calculator returns
exactly weight divided by the squared height in metres, a strictly
positive value. -/
theorem C5_bmi_positive :
    ∀ w h : ℚ, 0 < w → 0 < h →
      calculate_bmi w h = some (w / (h / 100) ^ 2) ∧ 0 < w / (h / 100) ^ 2 := by
  intro w h hw hh
  exact ⟨calculate_bmi_eq_some w h (ne_of_gt hh),
    div_pos hw (pow_pos (div_pos hh (by norm_num)) 2)⟩

/-- C5 witness: the BMI calculator at weight 70 and height 170. -/
theorem C5_bmi_positive_witness :
    calculate_bmi 70 170 = some (70 / ((170 : ℚ) / 100) ^ 2) ∧
      0 < (70 : ℚ) / ((170 : ℚ) / 100) ^ 2 :=
  C5_bmi_positive 70 170 (by norm_num) (by norm_num)

/-- C6: activity levels outside the five-entry table get factor 1.2 and
goals outside the five-entry table get offset 0; neither lookup fails. -/
theorem C6_unmapped_defaults :
    (∀ level : String,
      level ∉ (["Sedentary (little or no exercise)",
        "Lightly active (light exercise/sports 1-3 days/week)",
        "Moderately active (moderate exercise/sports 3-5 days/week)",
        "Very active (hard exercise/sports 6-7 days/week)",
        "Extra active (very hard exercise or physical job)"] : List String) →
      activity_factor level = 1.2) ∧
    (∀ t : ℤ, ∀ g : String,
      g ∉ (["Maintain weight", "Mild weight loss", "Weight loss",
        "Mild weight gain", "Weight gain"] : List String) →
      adjust_calorie_for_goal t g = t) := by
  constructor
  · intro level hmem
    simp only [List.mem_cons, List.not_mem_nil, or_false, not_or] at hmem
    obtain ⟨h1, h2, h3, h4, h5⟩ := hmem
    unfold activity_factor
    rw [if_neg h1, if_neg h2, if_neg h3, if_neg h4, if_neg h5]
  · intro t g hmem
    simp only [List.mem_cons, List.not_mem_nil, or_false, not_or] at hmem
    obtain ⟨h1, h2, h3, h4, h5⟩ := hmem
    unfold adjust_calorie_for_goal goal_offset
    rw [if_neg h1, if_neg h2, if_neg h3, if_neg h4, if_neg h5, add_zero, pyInt_intCast]

/-- C6 witness: an unmapped activity level and an unmapped goal. -/
theorem C6_unmapped_defaults_witness :
    activity_factor "Couch potato" = 1.2 ∧ adjust_calorie_for_goal 2000 "Bulk" = 2000 :=
  ⟨C6_unmapped_defaults.1 "Couch potato" (by decide),
   C6_unmapped_defaults.2 2000 "Bulk" (by decide)⟩

/-- C7 counterexample: weight 250 kg is outside the declared range of
30 to 200, yet the pipeline produces a report instead of failing with a
validation error. -/
theorem C7_counterexample :
    (200 : ℤ) < 250 ∧
    (runPipeline ⟨25, "Male", 170, 250, "Sedentary (little or no exercise)",
      "Maintain weight"⟩).isSome = true := by
  refine ⟨by norm_num, ?_⟩
  unfold runPipeline
  rw [calculate_bmi_eq_some _ _ (by norm_num)]
  rfl

/-- C7 amended: the core performs no range validation; for every input
with nonzero height, in range or not, the pipeline proceeds through the
energy and meal stages and produces a report. -/
theorem C7_no_range_validation :
    ∀ inp : BiometricInput, inp.height_cm ≠ 0 → ∃ r : Report, runPipeline inp = some r := by
  intro inp h
  have hq : (inp.height_cm : ℚ) ≠ 0 := Int.cast_ne_zero.mpr h
  unfold runPipeline
  rw [calculate_bmi_eq_some _ _ hq]
  exact ⟨_, rfl⟩

/-- C7 witness: the pipeline at an input with several out-of-range
fields and unmapped enumeration strings still yields a report. -/
theorem C7_no_range_validation_witness :
    ∃ r : Report, runPipeline ⟨130, "Other", 300, 500, "walks", "shred"⟩ = some r :=
  C7_no_range_validation ⟨130, "Other", 300, 500, "walks", "shred"⟩ (by decide)

/-- C8 counterexample: at height -100 cm the BMI calculator returns the
numeric value 70 for weight 70 instead of failing. -/
theorem C8_counterexample :
    ((-100 : ℚ) ≤ 0) ∧ calculate_bmi 70 (-100) = some 70 := by
  refine ⟨by norm_num, ?_⟩
  rw [calculate_bmi_eq_some 70 (-100) (by norm_num)]
  norm_num

/-- C8 amended: the BMI calculator fails with a division-by-zero error
exactly at height 0; for every nonzero height, negative included, it
returns the numeric value weight divided by the squared height in
metres. -/
theorem C8_division_by_zero :
    (∀ w : ℚ, calculate_bmi w 0 = none) ∧
    (∀ w h : ℚ, h ≠ 0 → calculate_bmi w h = some (w / (h / 100) ^ 2)) := by
  constructor
  · intro w
    simp [calculate_bmi]
  · exact fun w h hh => calculate_bmi_eq_some w h hh

/-- C8 amended witness: height 0 fails and height -50 returns a value. -/
theorem C8_division_by_zero_witness :
    calculate_bmi 70 0 = none ∧
      calculate_bmi 70 (-50) = some (70 / ((-50 : ℚ) / 100) ^ 2) :=
  ⟨C8_division_by_zero.1 70, C8_division_by_zero.2 70 (-50) (by norm_num)⟩

/-- C9: the pipeline is deterministic; two runs on the same input give
the same result, so the report text and the CSV rows are identical. -/
theorem C9_deterministic :
    ∀ inp : BiometricInput, ∀ r1 r2 : Option Report,
      runPipeline inp = r1 → runPipeline inp = r2 →
      r1 = r2 ∧ Option.map Report.text r1 = Option.map Report.text r2 ∧
        Option.map Report.csv r1 = Option.map Report.csv r2 := by
  intro inp r1 r2 h1 h2
  subst h1
  subst h2
  exact ⟨rfl, rfl, rfl⟩

/-- C9 witness: two runs on a concrete input coincide. -/
theorem C9_deterministic_witness :
    runPipeline ⟨25, "Female", 170, 70, "Sedentary (little or no exercise)", "Maintain weight"⟩ =
        runPipeline ⟨25, "Female", 170, 70, "Sedentary (little or no exercise)", "Maintain weight"⟩ ∧
      Option.map Report.text (runPipeline ⟨25, "Female", 170, 70,
          "Sedentary (little or no exercise)", "Maintain weight"⟩) =
        Option.map Report.text (runPipeline ⟨25, "Female", 170, 70,
          "Sedentary (little or no exercise)", "Maintain weight"⟩) ∧
      Option.map Report.csv (runPipeline ⟨25, "Female", 170, 70,
          "Sedentary (little or no exercise)", "Maintain weight"⟩) =
        Option.map Report.csv (runPipeline ⟨25, "Female", 170, 70,
          "Sedentary (little or no exercise)", "Maintain weight"⟩) :=
  C9_deterministic ⟨25, "Female", 170, 70, "Sedentary (little or no exercise)",
    "Maintain weight"⟩ _ _ rfl rfl

/-- C10: the in-range input Female, age 120, height 100 cm, weight
30 kg, sedentary, weight-loss goal yields the negative calorie target
-304, and the negative value flows unguarded into the meal portions and
template strings. -/
theorem C10_negative_calorie_target :
    ((5 : ℤ) ≤ 120 ∧ (120 : ℤ) ≤ 120) ∧
    ((100 : ℤ) ≤ 100 ∧ (100 : ℤ) ≤ 220) ∧
    ((30 : ℤ) ≤ 30 ∧ (30 : ℤ) ≤ 200) ∧
    calculate_bmi 30 100 = some 30 ∧
    bmi_category 30 = "Obese" ∧
    bmr_mifflin 30 100 120 "Female" = 164 ∧
    tdee_of 164 "Sedentary (little or no exercise)" = 196 ∧
    adjust_calorie_for_goal 196 "Weight loss" = -304 ∧
    ((-304 : ℤ) < 0) ∧
    (sample_meal_plan (-304) "Obese").breakfast = "Oatmeal with berries (~-226 kcal)" ∧
    (sample_meal_plan (-304) "Obese").lunch = "Large salad with lean protein (~-256 kcal)" ∧
    (sample_meal_plan (-304) "Obese").snack = "Veg sticks or a small fruit (~-80 kcal)" ∧
    (sample_meal_plan (-304) "Obese").dinner =
      "Light vegetable soup + lean protein (~-191 kcal)" := by
  refine ⟨⟨by norm_num, by norm_num⟩, ⟨by norm_num, by norm_num⟩, ⟨by norm_num, by norm_num⟩,
    ?_, ?_, ?_, ?_, ?_, by norm_num, ?_, ?_, ?_, ?_⟩
  · rw [calculate_bmi_eq_some 30 100 (by norm_num)]
    norm_num
  · norm_num [bmi_category]
  · unfold bmr_mifflin
    rw [if_neg (by decide), if_pos rfl]
    norm_num
  · show pyInt ((164 : ℚ) * activity_factor "Sedentary (little or no exercise)") = 196
    rw [show activity_factor "Sedentary (little or no exercise)" = 1.2 from rfl]
    unfold pyInt
    rw [if_pos (by norm_num)]
    norm_num [Int.floor_eq_iff]
  · unfold adjust_calorie_for_goal
    rw [show ((196 : ℤ) + goal_offset "Weight loss") = -304 from by decide]
    exact pyInt_intCast (-304)
  · rw [show (sample_meal_plan (-304) "Obese").breakfast =
      "Oatmeal with berries (~" ++ toString (pyInt ((-304 : ℚ) * 0.25) - 150) ++ " kcal)" from
        rfl, show pyInt ((-304 : ℚ) * 0.25) = -76 from ?_]
    · rfl
    · unfold pyInt
      rw [if_neg (by norm_num)]
      norm_num [Int.ceil_eq_iff]
  · rw [show (sample_meal_plan (-304) "Obese").lunch =
      "Large salad with lean protein (~" ++ toString (pyInt ((-304 : ℚ) * 0.35) - 150) ++
        " kcal)" from rfl, show pyInt ((-304 : ℚ) * 0.35) = -106 from ?_]
    · rfl
    · unfold pyInt
      rw [if_neg (by norm_num)]
      norm_num [Int.ceil_eq_iff]
  · rw [show (sample_meal_plan (-304) "Obese").snack =
      "Veg sticks or a small fruit (~" ++ toString (pyInt ((-304 : ℚ) * 0.10) - 50) ++
        " kcal)" from rfl, show pyInt ((-304 : ℚ) * 0.10) = -30 from ?_]
    · rfl
    · unfold pyInt
      rw [if_neg (by norm_num)]
      norm_num [Int.ceil_eq_iff]
  · rw [show (sample_meal_plan (-304) "Obese").dinner =
      "Light vegetable soup + lean protein (~" ++ toString (pyInt ((-304 : ℚ) * 0.30) - 100) ++
        " kcal)" from rfl, show pyInt ((-304 : ℚ) * 0.30) = -91 from ?_]
    · rfl
    · unfold pyInt
      rw [if_neg (by norm_num)]
      norm_num [Int.ceil_eq_iff]

end Roy
